import Mathlib

/-!
Shallow embedding of `src/agent/lambda/agent-handler/lambda_function.py`,
an AWS Lex v2 fulfillment handler for a mental-health chat bot.

The Python code manipulates loosely typed JSON dictionaries.  We embed the
shapes that the handlers actually touch as Lean structures:

* a slot value holder (`SlotValue`) carries `originalValue`,
  `interpretedValue` and `resolvedValues` under a nested `value` key;
* the inbound Lex turn event (`Event`) carries the intent (name, slots,
  confirmation state), the optional session-attributes map, the session id,
  the invocation source and the input transcript;
* the outbound response (`LexResponse`) mirrors the dictionaries built by
  `elicit_slot`, `elicit_intent`, `delegate`, `verify_identity` and
  `emergency_helpline`: a `sessionState` (optional active contexts,
  session attributes, dialog action, optional intent) plus a message list.

Python dictionaries with string keys are embedded as association lists.
A slot map entry whose value is JSON `null` and an entirely missing slot key
both make `try_ex` receive "no holder", so `getSlot` joins the two cases.
Python truthiness on optional strings (`None` and `""` are falsy) is
`pyTruthy`.
-/

namespace MentalHealthBot

/-- A Python `dict[str, str]` (session attributes, context attributes). -/
abbrev AttrMap := List (String × String)

/-- The `value` sub-dictionary of a Lex slot: `slots[name]["value"]`. -/
structure SlotInner where
  originalValue : Option String
  interpretedValue : Option String
  resolvedValues : List String
deriving DecidableEq

/-- A slot value holder, i.e. a non-null entry of the slot map of the intent. -/
structure SlotValue where
  value : SlotInner
deriving DecidableEq

/-- The slot map of an intent: slot name to holder; a `none` holder is the JSON
`null` that Lex puts under a declared-but-unfilled slot. -/
abbrev Slots := List (String × Option SlotValue)

/-- `slots[name]` as the handlers consume it: a missing key and a `null`
value both yield no holder. -/
def getSlot (slots : Slots) (k : String) : Option SlotValue :=
  (slots.lookup k).join

/-- An intent object: `{"name", "slots", "state", "confirmationState"}`;
`state` and `confirmationState` are optional keys. -/
structure Intent where
  name : String
  slots : Slots
  state : Option String
  confirmationState : Option String
deriving DecidableEq

/-- The inbound `sessionState`: intent plus the optional session-attributes
dictionary (`None`/absent is modelled as `none`). -/
structure EventSessionState where
  intent : Intent
  sessionAttributes : Option AttrMap
deriving DecidableEq

/-- The inbound Lex turn event. -/
structure Event where
  sessionState : EventSessionState
  sessionId : String
  invocationSource : String
  inputTranscript : String
deriving DecidableEq

/-- `{"timeToLiveInSeconds": _, "turnsToLive": _}`. -/
structure TimeToLive where
  timeToLiveInSeconds : Nat
  turnsToLive : Nat
deriving DecidableEq

/-- One entry of the `activeContexts` list of a response. -/
structure ActiveContext where
  name : String
  contextAttributes : AttrMap
  timeToLive : TimeToLive
deriving DecidableEq

/-- `{"type": _, "slotToElicit": _}`; `slotToElicit` is an optional key. -/
structure DialogAction where
  type_ : String
  slotToElicit : Option String
deriving DecidableEq

/-- A button of an image response card. -/
structure Button where
  text : String
  value : String
deriving DecidableEq

/-- One entry of the `messages` list of a response: either
`{"contentType": "PlainText", "content": _}` or
`{"contentType": "ImageResponseCard", "imageResponseCard": {"buttons", "title"}}`. -/
inductive Message where
  | plainText (content : String)
  | imageResponseCard (buttons : List Button) (title : String)
deriving DecidableEq

/-- The outbound `sessionState`; `activeContexts` and `intent` are keys that
some builders omit, hence `Option`. -/
structure ResponseSessionState where
  activeContexts : Option (List ActiveContext)
  sessionAttributes : AttrMap
  dialogAction : DialogAction
  intent : Option Intent
deriving DecidableEq

/-- The outbound Lex response object. -/
structure LexResponse where
  sessionState : ResponseSessionState
  messages : List Message
deriving DecidableEq

/-- Python truthiness of an optional string: `None` and `""` are falsy. -/
def pyTruthy : Option String → Bool
  | none => false
  | some s => s ≠ ""

/-- Value of `d.get("sessionAttributes") or {}` and of
`d.get("sessionAttributes", {})`: both yield the stored map, or `{}` when the
key is absent (for `or {}` also when the stored map is empty, which has the
same contents `[]`). -/
def pyOrEmpty : Option AttrMap → AttrMap
  | none => []
  | some d => d

/-- Python dict assignment `m[k] = v`: overwrite the existing entry for `k`
in place (keeping its position, as CPython dicts do), else append a new
entry at the end. -/
def insertAttr : AttrMap → String → String → AttrMap
  | [], k, v => [(k, v)]
  | p :: t, k, v => if p.1 = k then (k, v) :: t else p :: insertAttr t k v

/-- `elicit_slot(session_attributes, active_contexts, intent, slot_to_elicit,
message)` of lambda_function.py lines 37-62. -/
def elicit_slot (session_attributes : AttrMap) (active_contexts : AttrMap)
    (intent : Intent) (slot_to_elicit : String) (message : String) : LexResponse :=
  { sessionState :=
      { activeContexts := some
          [{ name := "intentContext"
             contextAttributes := active_contexts
             timeToLive := { timeToLiveInSeconds := 86400, turnsToLive := 20 } }]
        sessionAttributes := session_attributes
        dialogAction := { type_ := "ElicitSlot", slotToElicit := some slot_to_elicit }
        intent := some intent }
    messages := [Message.plainText message] }

/-- `elicit_intent(intent_request, session_attributes, message)` of
lambda_function.py lines 65-92.  The `intent_request` parameter appears in the
signature but is never read in the body. -/
def elicit_intent (intent_request : Event) (session_attributes : AttrMap)
    (message : String) : LexResponse :=
  { sessionState :=
      { activeContexts := none
        sessionAttributes := session_attributes
        dialogAction := { type_ := "ElicitIntent", slotToElicit := none }
        intent := none }
    messages :=
      [Message.plainText message,
       Message.imageResponseCard
         [{ text := "Emergency Helpline", value := "Emergency Helpline" },
          { text := "Ask Alex Buddy"
            value := "What kind of questions can Alex Buddy answer?" }]
         "How can I help you?"] }

/-- `delegate(session_attributes, active_contexts, intent, message)` of
lambda_function.py lines 95-117. -/
def delegate (session_attributes : AttrMap) (active_contexts : AttrMap)
    (intent : Intent) (message : String) : LexResponse :=
  { sessionState :=
      { activeContexts := some
          [{ name := "intentContext"
             contextAttributes := active_contexts
             timeToLive := { timeToLiveInSeconds := 86400, turnsToLive := 20 } }]
        sessionAttributes := session_attributes
        dialogAction := { type_ := "Delegate", slotToElicit := none }
        intent := some intent }
    messages := [Message.plainText message] }

/-- `try_ex(value)` of lambda_function.py lines 120-132: if the holder is
non-null, a non-empty (truthy) `resolvedValues` list makes it return the
`interpretedValue` field; otherwise a truthy `originalValue` (a non-empty
string) is returned; otherwise `None`. -/
def try_ex : Option SlotValue → Option String
  | none => none
  | some v =>
    if v.value.resolvedValues ≠ [] then
      v.value.interpretedValue
    else
      match v.value.originalValue with
      | some s => if s ≠ "" then some s else none
      | none => none

/-- `verify_identity(intent_request)` of lambda_function.py lines 138-163.
Reads the `UserName` slot through `try_ex`; on a truthy username it stores it
into the session attributes and elicits a new intent with a personalized
acknowledgement; otherwise it elicits the `UserName` slot with an empty
active-context map. -/
def verify_identity (e : Event) : LexResponse :=
  let slots := e.sessionState.intent.slots
  let username := try_ex (getSlot slots "UserName")
  let session_attributes := pyOrEmpty e.sessionState.sessionAttributes
  let intent := e.sessionState.intent
  let active_contexts : AttrMap := []
  if pyTruthy username then
    elicit_intent e (insertAttr session_attributes "UserName" (username.getD ""))
      ("Thank you for confirming your username and PIN, " ++ username.getD "" ++
       ". How are you doing? Is everything going well?")
  else
    elicit_slot session_attributes active_contexts intent "UserName"
      "Please provide your username to proceed."

/-- The CPython heap effect of `verify_identity` on the inbound event:
`session_attributes = intent_request["sessionState"].get("sessionAttributes")
or {}` aliases the inbound dictionary exactly when it is present and
non-empty (truthy); the subsequent `session_attributes["UserName"] = username`
(executed when the username is truthy) then mutates the inbound event in
place.  In every other case the inbound event is untouched. -/
def verify_identity_eventAfter (e : Event) : Event :=
  let username := try_ex (getSlot e.sessionState.intent.slots "UserName")
  match e.sessionState.sessionAttributes with
  | some d =>
    if d ≠ [] ∧ pyTruthy username then
      { e with sessionState :=
        { e.sessionState with
          sessionAttributes := some (insertAttr d "UserName" (username.getD "")) } }
    else
      e
  | none => e

/-- The 5-option menu text of lambda_function.py lines 188-195. -/
def selection_menu_text : String :=
  "What type of support do you need? Please select one option from below:\n" ++
  "1. General Support\n" ++
  "2. Suicide Prevention\n" ++
  "3. Young People\n" ++
  "4. LGBTQ+ Support\n" ++
  "5. Urgent Help"

/-- The `if user_selection == "1" ... else` chain of lambda_function.py
lines 201-212, mapping the selection string to the canned helpline message. -/
def selection_message (user_selection : String) : String :=
  if user_selection = "1" then
    "**General Mental Health Support**:\n- Samaritans: Call 116 123 (24/7)\n- NHS 111: Call 111 (24/7)"
  else if user_selection = "2" then
    "**Suicide Prevention**:\n- National Suicide Prevention Helpline: Call 0800 689 5652\n- Papyrus HOPELINEUK: Call 0800 068 4141"
  else if user_selection = "3" then
    "**Support for Young People**:\n- Childline: Call 0800 1111 (24/7)\n- Shout Crisis Text Line: Text \x27YM\x27 to 85258"
  else if user_selection = "4" then
    "**LGBTQ+ Support**:\n- Switchboard: Call 0300 330 0630 (10am-10pm)\n- Text \x27SHOUT\x27 to 85258 (24/7)"
  else if user_selection = "5" then
    "**Urgent Help**:\n- Call 999 for immediate danger\n- Visit A&E for emergency mental health support"
  else
    "I didn\u2019t understand that. Please reply with 1, 2, 3, 4, or 5."

/-- `emergency_helpline(intent_request)` of lambda_function.py lines 166-232.
A falsy `Selection` value elicits the `Selection` slot with the 5-option menu;
otherwise the intent is closed as `Fulfilled` with the mapped message,
carrying the inbound slots and the inbound confirmation state (defaulted to
`"None"`). -/
def emergency_helpline (e : Event) : LexResponse :=
  let session_attributes := pyOrEmpty e.sessionState.sessionAttributes
  let intent := e.sessionState.intent
  let slots := intent.slots
  let user_selection := try_ex (getSlot slots "Selection")
  if ¬ pyTruthy user_selection then
    { sessionState :=
        { activeContexts := none
          dialogAction := { type_ := "ElicitSlot", slotToElicit := some "Selection" }
          intent := some intent
          sessionAttributes := session_attributes }
      messages := [Message.plainText selection_menu_text] }
  else
    { sessionState :=
        { activeContexts := none
          dialogAction := { type_ := "Close", slotToElicit := none }
          intent := some
            { name := intent.name
              slots := intent.slots
              state := some "Fulfilled"
              confirmationState := some (intent.confirmationState.getD "None") }
          sessionAttributes := session_attributes }
      messages := [Message.plainText (selection_message (user_selection.getD ""))] }

/-- A role tag of a conversation-memory record. -/
inductive Role where
  | human
  | assistant
deriving DecidableEq

/-- One record of the session-keyed Turn Memory store. -/
structure MemRecord where
  sessionId : String
  role : Role
  content : String
deriving DecidableEq

/-- The Turn Memory store, as the append-only sequence of records. -/
abbrev Memory := List MemRecord

/-- Modelled from the spec: the conversation-memory component (the `Chat`
class of chat.py, which this repository imports but whose file is not under
src/).  Constructing `Chat({"Human": prompt}, session_id)` records the human
turn into Turn Memory for that session. -/
def chat_init (mem : Memory) (session_id prompt : String) : Memory :=
  mem ++ [{ sessionId := session_id, role := Role.human, content := prompt }]

/-- Modelled from the spec: `chat.set_memory({"Assistant": recap}, session_id)`
appends the assistant-tagged record to Turn Memory for that session. -/
def set_memory (mem : Memory) (session_id : String) (role : Role)
    (content : String) : Memory :=
  mem ++ [{ sessionId := session_id, role := role, content := content }]

/-- A stub for the external language-generation service: `run` is the
memory-grounded agent call (`FSIAgent.run`), `predict` the summarization call
(`ConversationChain.predict`). -/
structure GenService where
  run : String → Memory → String
  predict : String → String

/-- `invoke_agent(prompt, session_id)` of lambda_function.py lines 235-261,
with the external generation service as a stub and Turn Memory threaded
explicitly: record the human turn (the `Chat` constructor), run the agent on
the prompt, ask the service to summarize that message within 50 words,
record the summary as the assistant turn, and return the full message. -/
def invoke_agent (svc : GenService) (prompt session_id : String)
    (mem : Memory) : String × Memory :=
  let mem1 := chat_init mem session_id prompt
  let message := svc.run prompt mem1
  let formatted_prompt :=
    "\n\nHuman: " ++ "Summarize the following within 50 words: " ++ message ++
    " \n\nAssistant:"
  let ai_response_recap := svc.predict formatted_prompt
  let mem2 := set_memory mem1 session_id Role.assistant ai_response_recap
  (message, mem2)

/-- A Python exception raised by the embedded code. -/
inductive PyErr where
  | unboundLocalOutput
  | unsupportedIntent (name : String)
deriving DecidableEq

/-- `genai_intent(intent_request)` of lambda_function.py lines 264-277.  The
local `output` is assigned only inside the `invocationSource ==
"DialogCodeHook"` branch; on any other invocation source the trailing
`return elicit_intent(..., output)` reads an unassigned local and CPython
raises `UnboundLocalError`. -/
def genai_intent (svc : GenService) (mem : Memory) (e : Event) :
    Except PyErr (LexResponse × Memory) :=
  let session_attributes := pyOrEmpty e.sessionState.sessionAttributes
  let session_id := e.sessionId
  if e.invocationSource = "DialogCodeHook" then
    let prompt := e.inputTranscript
    let om := invoke_agent svc prompt session_id mem
    Except.ok (elicit_intent e session_attributes om.1, om.2)
  else
    Except.error PyErr.unboundLocalOutput

/-- The `if/elif/else` ladder of `dispatch` (lambda_function.py lines
289-294): each arm ends in a `return`, so it yields `some` result; `none`
would mean control fell through to the line after the ladder. -/
def dispatch_branches (svc : GenService) (mem : Memory) (e : Event) :
    Option (Except PyErr (LexResponse × Memory)) :=
  let intent_name := e.sessionState.intent.name
  if intent_name = "VerifyIdentity" then
    some (Except.ok (verify_identity e, mem))
  else if intent_name = "Emergencyhelpline" then
    some (Except.ok (emergency_helpline e, mem))
  else
    some (genai_intent svc mem e)

/-- `dispatch(intent_request)` of lambda_function.py lines 283-296: run the
`if/elif/else` ladder; if control fell through it, execute the trailing
`raise Exception("Intent with name " + intent_name + " not supported")`. -/
def dispatch (svc : GenService) (mem : Memory) (e : Event) :
    Except PyErr (LexResponse × Memory) :=
  match dispatch_branches svc mem e with
  | some r => r
  | none => Except.error (PyErr.unsupportedIntent e.sessionState.intent.name)

/-- The heap effect of one `dispatch` on the inbound event: only
`verify_identity` writes through a dictionary aliased from the event; the
other handlers only read it. -/
def dispatch_eventAfter (e : Event) : Event :=
  if e.sessionState.intent.name = "VerifyIdentity" then
    verify_identity_eventAfter e
  else
    e

/-! ### Helper lemmas and sample inputs -/

/-- Looking up a key right after a Python dict assignment yields the assigned
value. -/
theorem lookup_insertAttr (m : AttrMap) (k v : String) :
    (insertAttr m k v).lookup k = some v := by
  induction m with
  | nil => simp [insertAttr, List.lookup]
  | cons p t ih =>
    by_cases hp : p.1 = k
    · simp [insertAttr, hp, List.lookup]
    · simp only [insertAttr, hp, if_false, List.lookup]
      have : (k == p.1) = false := by
        simp [beq_iff_eq]
        exact fun h => hp h.symm
      simp [this, ih]

/-- Event constructor used for concrete test inputs. -/
def mkEvent (name : String) (slots : Slots) (sa : Option AttrMap)
    (src transcript : String) : Event :=
  { sessionState :=
      { intent := { name := name, slots := slots, state := none, confirmationState := none }
        sessionAttributes := sa }
    sessionId := "s1"
    invocationSource := src
    inputTranscript := transcript }

/-- A concrete stub for the external generation service. -/
def stubSvc : GenService :=
  { run := fun p _ => "Agent reply to: " ++ p
    predict := fun _ => "recap" }

/-! ### C2: try_ex on a non-empty resolved-values list -/

/-- A holder whose `interpretedValue` differs from the first resolved value. -/
def holderC2 : SlotValue :=
  { value := { originalValue := some "c", interpretedValue := some "b", resolvedValues := ["a"] } }

/-- Claim C2, as stated, is false: on a holder with non-empty
`resolvedValues = ["a"]` but `interpretedValue = "b"`, `try_ex` returns
`"b"` — the `interpretedValue` field — and not the first element of the
resolved-values list. -/
theorem try_ex_not_first_resolved :
    holderC2.value.resolvedValues.head? = some "a" ∧
    try_ex (some holderC2) = some "b" ∧
    try_ex (some holderC2) ≠ holderC2.value.resolvedValues.head? := by
  decide

/-- Claim C2 (amended): for every slot value holder that is present and whose
resolved-values list is non-empty, `try_ex` returns the `interpretedValue`
field of the holder (a separate field of the Lex slot object), never the raw
`originalValue` field and not necessarily the first resolved value. -/
theorem try_ex_resolved_returns_interpreted (v : SlotValue)
    (h : v.value.resolvedValues ≠ []) :
    try_ex (some v) = v.value.interpretedValue := by
  simp [try_ex, h]

/-- Witness for the amended C2 at a concrete holder. -/
theorem try_ex_resolved_returns_interpreted_witness :
    try_ex (some holderC2) = some "b" :=
  try_ex_resolved_returns_interpreted holderC2 (by decide)

/-! ### C7: try_ex on an empty resolved-values list / absent holder -/

/-- A holder with no resolved values whose raw original value is the empty
string: present, but falsy in Python. -/
def holderC7 : SlotValue :=
  { value := { originalValue := some "", interpretedValue := none, resolvedValues := [] } }

/-- Claim C7, as stated, is false at one corner: a holder with an empty
resolved-values list and a present raw original value `""` makes `try_ex`
return `None` (the empty string is falsy in Python), not the raw value. -/
theorem try_ex_empty_original_counterexample :
    holderC7.value.resolvedValues = [] ∧
    holderC7.value.originalValue = some "" ∧
    try_ex (some holderC7) = none ∧
    try_ex (some holderC7) ≠ holderC7.value.originalValue := by
  decide

/-- Claim C7 (amended): for every holder with an empty resolved-values list
and a present, non-empty raw original value, `try_ex` returns the raw
original value; and for an absent (`none`) holder it returns `none` (the
embedding is a total function, so no exception is possible). -/
theorem try_ex_raw_value_and_absent :
    (∀ (v : SlotValue) (s : String), v.value.resolvedValues = [] →
      v.value.originalValue = some s → s ≠ "" → try_ex (some v) = some s) ∧
    try_ex (none : Option SlotValue) = none := by
  constructor
  · intro v s h1 h2 h3
    simp [try_ex, h1, h2, h3]
  · rfl

/-- Witness for the amended C7 at a concrete holder. -/
theorem try_ex_raw_value_and_absent_witness :
    try_ex (some { value := { originalValue := some "alex", interpretedValue := none, resolvedValues := [] } }) = some "alex" :=
  try_ex_raw_value_and_absent.1
    { value := { originalValue := some "alex", interpretedValue := none, resolvedValues := [] } }
    "alex" rfl rfl (by decide)

/-! ### C9: fixed active context of elicit_slot and delegate -/

/-- Claim C9: the responses constructed by `elicit_slot` and by `delegate`
each carry exactly one active context (a singleton list), named
`"intentContext"`, with `timeToLiveInSeconds = 86400` and `turnsToLive = 20`,
for all inputs. -/
theorem builders_fixed_active_context (sa ac : AttrMap) (intent : Intent)
    (slot m : String) :
    (elicit_slot sa ac intent slot m).sessionState.activeContexts =
      some [{ name := "intentContext", contextAttributes := ac,
              timeToLive := { timeToLiveInSeconds := 86400, turnsToLive := 20 } }] ∧
    (delegate sa ac intent m).sessionState.activeContexts =
      some [{ name := "intentContext", contextAttributes := ac,
              timeToLive := { timeToLiveInSeconds := 86400, turnsToLive := 20 } }] :=
  ⟨rfl, rfl⟩

/-! ### C10: elicit_intent never consults its intent_request argument -/

/-- Claim C10: the output of `elicit_intent` is independent of its
`intent_request` argument — for any two turn events and fixed session
attributes and message, the responses coincide, so the response is fully
determined by the session attributes and the message. -/
theorem elicit_intent_ignores_intent_request (r1 r2 : Event) (sa : AttrMap)
    (m : String) :
    elicit_intent r1 sa m = elicit_intent r2 sa m :=
  rfl

/-! ### C1: genai_intent on non-DialogCodeHook invocations -/

/-- A fallback-intent turn arriving on the fulfillment pass, i.e. with an
invocation source other than `"DialogCodeHook"`. -/
def eventC1 : Event :=
  mkEvent "FallbackIntent" [] (some []) "FulfillmentCodeHook" "hello"

/-- The same turn arriving on the initial dialog hook. -/
def eventC1hook : Event :=
  mkEvent "FallbackIntent" [] (some []) "DialogCodeHook" "hello"

/-- Claim C1 names a contract the code violates: on the
`"DialogCodeHook"` path `genai_intent` does return an `ElicitIntent`
directive wrapping the agent reply, but on any other invocation source the
local variable `output` is never assigned, and the trailing
`return elicit_intent(..., output)` raises `UnboundLocalError` instead of
returning a directive — dispatch then yields zero directives. -/
theorem genai_intent_unbound_local :
    dispatch stubSvc [] eventC1 = Except.error PyErr.unboundLocalOutput ∧
    genai_intent stubSvc [] eventC1 = Except.error PyErr.unboundLocalOutput ∧
    (genai_intent stubSvc [] eventC1hook).map
        (fun r => r.1.sessionState.dialogAction.type_) = Except.ok "ElicitIntent" :=
  ⟨rfl, rfl, rfl⟩

/-! ### C4: dispatch routing table and the dead raise -/

/-- Claim C4: `dispatch` routes by the fixed table — `VerifyIdentity` to
`verify_identity`, `Emergencyhelpline` to `emergency_helpline`, every other
intent name to `genai_intent` — and, since every arm of the `if/elif/else`
ladder returns, the trailing `raise Exception("Intent with name ... not
supported")` is unreachable: `dispatch` never produces the
unsupported-intent error, for any intent name. -/
theorem dispatch_routing_table (svc : GenService) (mem : Memory) (e : Event) :
    (e.sessionState.intent.name = "VerifyIdentity" →
      dispatch svc mem e = Except.ok (verify_identity e, mem)) ∧
    (e.sessionState.intent.name = "Emergencyhelpline" →
      dispatch svc mem e = Except.ok (emergency_helpline e, mem)) ∧
    (e.sessionState.intent.name ≠ "VerifyIdentity" →
      e.sessionState.intent.name ≠ "Emergencyhelpline" →
      dispatch svc mem e = genai_intent svc mem e) ∧
    (∀ s : String, dispatch svc mem e ≠ Except.error (PyErr.unsupportedIntent s)) := by
  refine ⟨?_, ?_, ?_, ?_⟩
  · intro h
    simp [dispatch, dispatch_branches, h]
  · intro h
    by_cases h1 : e.sessionState.intent.name = "VerifyIdentity"
    · rw [h] at h1
      exact absurd h1 (by decide)
    · simp [dispatch, dispatch_branches, h, h1]
  · intro h1 h2
    simp [dispatch, dispatch_branches, h1, h2]
  · intro s
    by_cases h1 : e.sessionState.intent.name = "VerifyIdentity"
    · simp [dispatch, dispatch_branches, h1]
    · by_cases h2 : e.sessionState.intent.name = "Emergencyhelpline"
      · simp [dispatch, dispatch_branches, h1, h2]
      · by_cases h3 : e.invocationSource = "DialogCodeHook"
        · simp [dispatch, dispatch_branches, genai_intent, h1, h2, h3]
        · simp [dispatch, dispatch_branches, genai_intent, h1, h2, h3]

/-- A turn carrying an intent name outside the routing table. -/
def eventChat : Event :=
  mkEvent "Chat" [] (some []) "DialogCodeHook" "I feel low"

/-- A `VerifyIdentity` turn with no username yet. -/
def eventVerifyW : Event :=
  mkEvent "VerifyIdentity" [("UserName", none)] (some []) "DialogCodeHook" "hi"

/-- An `Emergencyhelpline` turn with no selection yet. -/
def eventHelpW : Event :=
  mkEvent "Emergencyhelpline" [("Selection", none)] (some []) "DialogCodeHook" "help"

/-- Witness for C4 at concrete turns, one per route, plus the absence of the
unsupported-intent error. -/
theorem dispatch_routing_table_witness :
    dispatch stubSvc [] eventVerifyW = Except.ok (verify_identity eventVerifyW, []) ∧
    dispatch stubSvc [] eventHelpW = Except.ok (emergency_helpline eventHelpW, []) ∧
    dispatch stubSvc [] eventChat = genai_intent stubSvc [] eventChat ∧
    dispatch stubSvc [] eventChat ≠ Except.error (PyErr.unsupportedIntent "Chat") :=
  ⟨(dispatch_routing_table stubSvc [] eventVerifyW).1 rfl,
   (dispatch_routing_table stubSvc [] eventHelpW).2.1 rfl,
   (dispatch_routing_table stubSvc [] eventChat).2.2.1 (by decide) (by decide),
   (dispatch_routing_table stubSvc [] eventChat).2.2.2 "Chat"⟩

/-! ### C8: invoke_agent returns the full text and appends one assistant record -/

/-- Number of records in Turn Memory for a given session and role. -/
def countRole (mem : Memory) (sid : String) (r : Role) : Nat :=
  mem.countP (fun x => x.sessionId == sid && x.role == r)

/-- Claim C8: with the memory store and the generation service modelled as
stubs, `invoke_agent` returns the full agent response (the value of the
memory-grounded `run` call, not the 50-word summary produced by `predict`),
and Turn Memory for the invoked session grows by exactly one
assistant-tagged record per invocation. -/
theorem invoke_agent_full_text_one_assistant_record (svc : GenService)
    (prompt session_id : String) (mem : Memory) :
    (invoke_agent svc prompt session_id mem).1 =
      svc.run prompt (chat_init mem session_id prompt) ∧
    countRole (invoke_agent svc prompt session_id mem).2 session_id Role.assistant =
      countRole mem session_id Role.assistant + 1 := by
  refine ⟨rfl, ?_⟩
  simp [invoke_agent, chat_init, set_memory, countRole, List.countP_append,
    List.countP_cons]

/-! ### C6: verify_identity -/

/-- A `VerifyIdentity` turn whose `UserName` slot resolves to the empty
string (`interpretedValue = ""` with a non-empty resolved list): `try_ex`
yields a value, but a falsy one. -/
def eventC6 : Event :=
  mkEvent "VerifyIdentity"
    [("UserName", some { value := { originalValue := some "", interpretedValue := some "", resolvedValues := ["x"] } })]
    (some []) "DialogCodeHook" "hi"

/-- Claim C6, as stated, is false at one corner: when the `UserName` slot
yields the empty string, the Python truthiness test sends the handler to the
elicit-slot branch, not to `ElicitIntent`. -/
theorem verify_identity_empty_username_counterexample :
    try_ex (getSlot eventC6.sessionState.intent.slots "UserName") = some "" ∧
    (verify_identity eventC6).sessionState.dialogAction.type_ = "ElicitSlot" ∧
    (verify_identity eventC6).sessionState.dialogAction.type_ ≠ "ElicitIntent" := by
  decide

/-- Claim C6 (amended): if the `UserName` slot yields a non-empty value, the
returned directive is `ElicitIntent` and the returned session attributes
hold that value under the key `"UserName"`; if the slot yields no value or
the empty string (both falsy in Python), the returned directive is
`ElicitSlot` with `slotToElicit = "UserName"` and a single active context
with an empty attribute map. -/
theorem verify_identity_correct (e : Event) :
    (∀ s : String,
      try_ex (getSlot e.sessionState.intent.slots "UserName") = some s → s ≠ "" →
      (verify_identity e).sessionState.dialogAction.type_ = "ElicitIntent" ∧
      ((verify_identity e).sessionState.sessionAttributes).lookup "UserName" = some s) ∧
    (pyTruthy (try_ex (getSlot e.sessionState.intent.slots "UserName")) = false →
      (verify_identity e).sessionState.dialogAction =
        { type_ := "ElicitSlot", slotToElicit := some "UserName" } ∧
      (verify_identity e).sessionState.activeContexts =
        some [{ name := "intentContext", contextAttributes := [],
                timeToLive := { timeToLiveInSeconds := 86400, turnsToLive := 20 } }]) := by
  constructor
  · intro s hs hne
    have ht : pyTruthy (try_ex (getSlot e.sessionState.intent.slots "UserName")) = true := by
      rw [hs]
      simp [pyTruthy, hne]
    have ht2 : pyTruthy (some s) = true := by simp [pyTruthy, hne]
    refine ⟨?_, ?_⟩
    · simp [verify_identity, ht, elicit_intent]
    · simp [verify_identity, ht, ht2, elicit_intent, hs, lookup_insertAttr]
  · intro hf
    exact ⟨by simp [verify_identity, hf, elicit_slot], by simp [verify_identity, hf, elicit_slot]⟩

/-- A `VerifyIdentity` turn with the username filled in. -/
def eventAlex : Event :=
  mkEvent "VerifyIdentity"
    [("UserName", some { value := { originalValue := some "alex", interpretedValue := none, resolvedValues := [] } })]
    (some []) "DialogCodeHook" "hi"

/-- Witness for the amended C6: both arms at concrete turns. -/
theorem verify_identity_correct_witness :
    (verify_identity eventAlex).sessionState.dialogAction.type_ = "ElicitIntent" ∧
    (verify_identity eventVerifyW).sessionState.dialogAction =
      { type_ := "ElicitSlot", slotToElicit := some "UserName" } :=
  ⟨((verify_identity_correct eventAlex).1 "alex" rfl (by decide)).1,
   ((verify_identity_correct eventVerifyW).2 rfl).1⟩

/-! ### C5: emergency_helpline -/

/-- An `Emergencyhelpline` turn whose `Selection` slot resolves to the empty
string: `try_ex` yields a value, but a falsy one. -/
def eventC5 : Event :=
  mkEvent "Emergencyhelpline"
    [("Selection", some { value := { originalValue := some "", interpretedValue := some "", resolvedValues := ["x"] } })]
    (some []) "DialogCodeHook" "help"

/-- Claim C5, as stated, is false at one corner: when the `Selection` slot
yields the empty string — a present value — the handler still emits
`ElicitSlot`, not the claimed `Close`. -/
theorem emergency_helpline_empty_selection_counterexample :
    try_ex (getSlot eventC5.sessionState.intent.slots "Selection") = some "" ∧
    (emergency_helpline eventC5).sessionState.dialogAction.type_ = "ElicitSlot" ∧
    (emergency_helpline eventC5).sessionState.dialogAction.type_ ≠ "Close" := by
  decide

/-- Claim C5 (amended): when the `Selection` slot yields no value or the
empty string (falsy), the handler returns `ElicitSlot` for `"Selection"`
with the fixed 5-option menu text and the intent passed through; when it
yields a non-empty value `s`, the handler returns `Close` with intent state
`"Fulfilled"`, the inbound slots preserved, the inbound confirmation state
preserved (defaulting to `"None"` when unset), and the message mapped from
`s`; the five messages for `"1"`..`"5"` are pairwise distinct, and every
other selection yields the not-understood message. -/
theorem emergency_helpline_correct (e : Event) :
    (pyTruthy (try_ex (getSlot e.sessionState.intent.slots "Selection")) = false →
      emergency_helpline e =
        { sessionState :=
            { activeContexts := none
              dialogAction := { type_ := "ElicitSlot", slotToElicit := some "Selection" }
              intent := some e.sessionState.intent
              sessionAttributes := pyOrEmpty e.sessionState.sessionAttributes }
          messages := [Message.plainText selection_menu_text] }) ∧
    (∀ s : String,
      try_ex (getSlot e.sessionState.intent.slots "Selection") = some s → s ≠ "" →
      emergency_helpline e =
        { sessionState :=
            { activeContexts := none
              dialogAction := { type_ := "Close", slotToElicit := none }
              intent := some
                { name := e.sessionState.intent.name
                  slots := e.sessionState.intent.slots
                  state := some "Fulfilled"
                  confirmationState := some (e.sessionState.intent.confirmationState.getD "None") }
              sessionAttributes := pyOrEmpty e.sessionState.sessionAttributes }
          messages := [Message.plainText (selection_message s)] }) ∧
    List.Pairwise (fun a b => a ≠ b)
      [selection_message "1", selection_message "2", selection_message "3",
       selection_message "4", selection_message "5"] ∧
    (∀ s : String, s ∉ (["1", "2", "3", "4", "5"] : List String) →
      selection_message s =
        "I didn\u2019t understand that. Please reply with 1, 2, 3, 4, or 5.") := by
  refine ⟨?_, ?_, by decide, ?_⟩
  · intro hf
    simp [emergency_helpline, hf]
  · intro s hs hne
    have ht : pyTruthy (try_ex (getSlot e.sessionState.intent.slots "Selection")) = true := by
      rw [hs]
      simp [pyTruthy, hne]
    have ht2 : pyTruthy (some s) = true := by simp [pyTruthy, hne]
    simp [emergency_helpline, ht, ht2, hs]
  · intro s hs
    simp only [List.mem_cons, List.not_mem_nil, or_false, not_or] at hs
    obtain ⟨h1, h2, h3, h4, h5⟩ := hs
    simp [selection_message, h1, h2, h3, h4, h5]

/-- An `Emergencyhelpline` turn with selection `"9"`. -/
def eventSel9 : Event :=
  mkEvent "Emergencyhelpline"
    [("Selection", some { value := { originalValue := some "9", interpretedValue := some "9", resolvedValues := ["9"] } })]
    (some [("k", "v")]) "DialogCodeHook" "9"

/-- Witness for the amended C5 at concrete turns: no selection elicits the
slot; selection `"9"` closes the turn with the not-understood message. -/
theorem emergency_helpline_correct_witness :
    (emergency_helpline eventHelpW).sessionState.dialogAction =
      { type_ := "ElicitSlot", slotToElicit := some "Selection" } ∧
    (emergency_helpline eventSel9).sessionState.dialogAction =
      { type_ := "Close", slotToElicit := none } ∧
    selection_message "9" =
      "I didn\u2019t understand that. Please reply with 1, 2, 3, 4, or 5." := by
  refine ⟨?_, ?_, ?_⟩
  · rw [(emergency_helpline_correct eventHelpW).1 rfl]
  · rw [(emergency_helpline_correct eventSel9).2.1 "9" rfl (by decide)]
  · exact (emergency_helpline_correct eventSel9).2.2.2 "9" (by decide)

/-! ### C3: the frame effect of one dispatch on the inbound event -/

/-- A `VerifyIdentity` turn with a filled username and a non-empty inbound
session-attributes map: the aliasing case. -/
def eventC3 : Event :=
  mkEvent "VerifyIdentity"
    [("UserName", some { value := { originalValue := some "alex", interpretedValue := none, resolvedValues := [] } })]
    (some [("k", "v")]) "DialogCodeHook" "hi"

/-- Claim C3, as stated, is false: dispatching a `VerifyIdentity` turn whose
inbound session-attributes dictionary is non-empty mutates the inbound
event in place — the handler writes `UserName` through the aliased
dictionary. -/
theorem dispatch_mutates_inbound_event :
    dispatch_eventAfter eventC3 ≠ eventC3 ∧
    (dispatch_eventAfter eventC3).sessionState.sessionAttributes =
      some [("k", "v"), ("UserName", "alex")] := by
  decide

/-- Claim C3 (amended): one dispatch leaves the inbound turn event
unmodified — for every route other than `VerifyIdentity`, whenever the
username is falsy, and whenever the inbound session-attributes map is absent
or empty (no aliasing) — except in the one case where `verify_identity`
stores a truthy username while the inbound session-attributes map is present
and non-empty: the store then writes through the aliased dictionary and the
inbound event itself gains the `UserName` entry. -/
theorem dispatch_frame_condition (e : Event) :
    (e.sessionState.intent.name ≠ "VerifyIdentity" → dispatch_eventAfter e = e) ∧
    (pyTruthy (try_ex (getSlot e.sessionState.intent.slots "UserName")) = false →
      dispatch_eventAfter e = e) ∧
    (e.sessionState.sessionAttributes = none ∨ e.sessionState.sessionAttributes = some [] →
      dispatch_eventAfter e = e) ∧
    (∀ (d : AttrMap) (s : String),
      e.sessionState.intent.name = "VerifyIdentity" →
      e.sessionState.sessionAttributes = some d → d ≠ [] →
      try_ex (getSlot e.sessionState.intent.slots "UserName") = some s → s ≠ "" →
      dispatch_eventAfter e =
        { e with sessionState :=
          { e.sessionState with sessionAttributes := some (insertAttr d "UserName" s) } }) := by
  refine ⟨?_, ?_, ?_, ?_⟩
  · intro h
    simp [dispatch_eventAfter, h]
  · intro hf
    by_cases hn : e.sessionState.intent.name = "VerifyIdentity"
    · cases hsa : e.sessionState.sessionAttributes with
      | none => simp [dispatch_eventAfter, hn, verify_identity_eventAfter, hsa]
      | some d => simp [dispatch_eventAfter, hn, verify_identity_eventAfter, hsa, hf]
    · simp [dispatch_eventAfter, hn]
  · intro hsa
    by_cases hn : e.sessionState.intent.name = "VerifyIdentity"
    · cases hsa with
      | inl h => simp [dispatch_eventAfter, hn, verify_identity_eventAfter, h]
      | inr h => simp [dispatch_eventAfter, hn, verify_identity_eventAfter, h]
    · simp [dispatch_eventAfter, hn]
  · intro d s hn hsa hd hs hne
    have ht : pyTruthy (try_ex (getSlot e.sessionState.intent.slots "UserName")) = true := by
      rw [hs]
      simp [pyTruthy, hne]
    have ht2 : pyTruthy (some s) = true := by simp [pyTruthy, hne]
    simp [dispatch_eventAfter, hn, verify_identity_eventAfter, hsa, hd, ht, ht2, hs]

/-- A non-`VerifyIdentity` turn used in the frame witness. -/
def eventFrameOther : Event :=
  mkEvent "Chat" [] (some [("k", "v")]) "DialogCodeHook" "hello"

/-- Witness for the amended C3 at concrete turns: an unrelated intent leaves
the event untouched; the aliasing case rewrites the inbound attributes. -/
theorem dispatch_frame_condition_witness :
    dispatch_eventAfter eventFrameOther = eventFrameOther ∧
    (dispatch_eventAfter eventC3).sessionState.sessionAttributes =
      some [("k", "v"), ("UserName", "alex")] := by
  constructor
  · exact (dispatch_frame_condition eventFrameOther).1 (by decide)
  · rw [(dispatch_frame_condition eventC3).2.2.2 [("k", "v")] "alex" rfl rfl
      (by decide) rfl (by decide)]
    rfl

end MentalHealthBot
